import Mathlib

set_option linter.unusedVariables false

/-!
Shallow embedding of the monitoring-and-alerting engine of the
domain-manager repository: the expiry evaluator, the certificate and
reachability probers, the notification dispatchers, the notification log
used as the deduplication oracle, and the four scheduled sweeps
(`performDailyMonitoring`, `performSSLMonitoring`, `performUptimeMonitoring`,
`checkAndSendAlerts`).

Timestamps are modelled as integers in milliseconds since the epoch (the
value of a JavaScript `Date`); a SQL `DATE` value for UTC day `d` is the
timestamp `d * msPerDay`.  Network probes are modelled as functions of the
network outcome (response, error, timeout), and the fallible notification
transports (`sendEmailAlert`, `sendSMSAlert`) as `Except String Unit`
parameters, `.error` modelling a throw.
-/

/-- Milliseconds in one day: the `1000 * 60 * 60 * 24` divisor used by every
`Math.ceil((date - now) / (1000 * 60 * 60 * 24))` expression in the source. -/
def msPerDay : Int := 1000 * 60 * 60 * 24

/-- JavaScript `Math.ceil(a / b)` for integer `a` and positive integer `b`:
ceiling division, written via Lean integer division (which floors). -/
def jsCeilDiv (a b : Int) : Int := -((-a) / b)

/-- `Math.ceil((new Date(target) - new Date()) / (1000 * 60 * 60 * 24))` as
computed at monitoring.js lines 59, 134, 244 and 282 (variable names
`daysUntilExpiry` / `daysUntilSSLExpiry` in the source). -/
def daysUntilExpiry (target now : Int) : Int := jsCeilDiv (target - now) msPerDay

/-- The UTC calendar day number of a millisecond timestamp (floor division
by `msPerDay`); this is `CURRENT_DATE` when `now` is the current instant. -/
def utcDay (t : Int) : Int := t / msPerDay

/-- JavaScript truthiness of an optional string field (`if (user.email)`):
an absent field (`undefined` / `null`) and the empty string are falsy. -/
def truthyStr : Option String → Bool
  | none => false
  | some s => s != ""

/-- The JavaScript fallback chain `x?.a || x?.b || 'fallback'` on optional
string values: an absent or empty string falls through. -/
def jsStrOr : Option String → String → String
  | none, d => d
  | some s, d => if s == "" then d else s

/-- Peer certificate data as read from `getPeerCertificate()` when the
certificate carries both `valid_from` and `valid_to`; the validity bounds are
held as millisecond timestamps (the result of `new Date(...)` on the raw
fields). -/
structure PeerCert where
  validFrom : Int
  validTo : Int
  issuerCN : Option String
  issuerO : Option String
  deriving DecidableEq

/-- Typed separation of the error values a certificate probe can reject
with: `raw` wraps an error object received from the transport layer and
passed through unchanged (`reject(error)`), while `constructed` wraps an
`Error` the prober builds itself (`reject(new Error('...'))`). -/
inductive SSLProbeError where
  | raw (message : String)
  | constructed (message : String)
  deriving DecidableEq

/-- The fields of the object a successful certificate probe resolves with
that the monitoring sweeps consume. -/
structure SSLInfo where
  issuer : String
  validFrom : Int
  validUntil : Int
  status : String
  deriving DecidableEq

/-- Certificate status computed inside `checkSSLCertificate` (sslService
lines 24-33). -/
def checkSSLCertificateStatus (validUntil now : Int) : String :=
  if validUntil < now then "expired"
  else if validUntil < now + 30 * 24 * 60 * 60 * 1000 then "expiring_soon"
  else "valid"

/-- Certificate status computed inside `checkWithTLS` (sslService lines
82-91); the source repeats the computation of `checkSSLCertificate`
textually. -/
def checkWithTLSStatus (validUntil now : Int) : String :=
  if validUntil < now then "expired"
  else if validUntil < now + 30 * 24 * 60 * 60 * 1000 then "expiring_soon"
  else "valid"

/-- The network-level outcomes of the `tls.connect` attempt in
`checkWithTLS`: the connect callback fires (with `some` peer certificate
when one carrying `valid_from`/`valid_to` is presented, `none` otherwise),
the socket emits an error, or the connection times out. -/
inductive TLSOutcome where
  | connected (cert : Option PeerCert)
  | socketError (message : String)
  | timeout
  deriving DecidableEq

/-- `checkWithTLS` (sslService lines 71-121) as a function of the network
outcome and the probe time `now`. -/
def checkWithTLS (outcome : TLSOutcome) (now : Int) : Except SSLProbeError SSLInfo :=
  match outcome with
  | .connected (some cert) =>
      .ok { issuer := jsStrOr cert.issuerCN (jsStrOr cert.issuerO "Unknown")
            validFrom := cert.validFrom
            validUntil := cert.validTo
            status := checkWithTLSStatus cert.validTo now }
  | .connected none => .error (.constructed "No valid certificate found")
  | .socketError message => .error (.raw message)
  | .timeout => .error (.constructed "Connection timeout")

/-- The outcomes of the `https.request` issued by `checkSSLCertificate`: a
response (with the peer certificate when one is presented), a request error
— on which the source falls back to `checkWithTLS`, resolving or rejecting
with that fallback's result — or the 10s timeout. -/
inductive HttpsProbeOutcome where
  | response (cert : Option PeerCert)
  | reqError (message : String) (fallback : TLSOutcome)
  | timeout
  deriving DecidableEq

/-- `checkSSLCertificate` (sslService lines 5-69) as a function of the
network outcome and the probe time `now`. -/
def checkSSLCertificate (outcome : HttpsProbeOutcome) (now : Int) :
    Except SSLProbeError SSLInfo :=
  match outcome with
  | .response (some cert) =>
      .ok { issuer := jsStrOr cert.issuerCN (jsStrOr cert.issuerO "Unknown")
            validFrom := cert.validFrom
            validUntil := cert.validTo
            status := checkSSLCertificateStatus cert.validTo now }
  | .response none => .error (.constructed "No valid certificate found")
  | .reqError _ fallback => checkWithTLS fallback now
  | .timeout => .error (.constructed "Request timeout")

/-- The outcomes of the single `protocol.get` request issued by
`checkDomainUptime`: a response carrying a status code, a request error
(covering connection refusal and DNS failure), or the 10s timeout. -/
inductive HttpOutcome where
  | response (statusCode : Int)
  | reqError
  | timeout
  deriving DecidableEq

/-- `checkDomainUptime` (monitoring.js lines 204-225) as a function of the
request outcome: every outcome resolves the promise to a boolean
(`res.statusCode >= 200 && res.statusCode < 400` on a response, `false` on
error or timeout); no outcome rejects. -/
def checkDomainUptime (outcome : HttpOutcome) : Bool :=
  match outcome with
  | .response statusCode => decide (200 ≤ statusCode) && decide (statusCode < 400)
  | .reqError => false
  | .timeout => false

/-- One per-channel outcome record pushed into `results` by the notification
dispatchers (notificationService): method, status, and the error message on
failure. -/
structure ChannelOutcome where
  method : String
  status : String
  error : Option String
  deriving DecidableEq

/-- The value observed in the `user` parameter of the dispatchers: at the
correct call sites it is a row object carrying `email` / `phone` fields; at
the three-argument `sendSSLExpiryAlert` call sites it is the number
`daysUntilSSLExpiry` shifted into this position.  JavaScript property access
on a number yields `undefined`. -/
inductive UserArg where
  | row (email phone : Option String) (firstName lastName : String)
  | number (n : Int)
  deriving DecidableEq

/-- The property access `user.email`: a row yields its field, a number has
no such property (`undefined`, modelled as `none`). -/
def UserArg.emailField : UserArg → Option String
  | .row email _ _ _ => email
  | .number _ => none

/-- The property access `user.phone`. -/
def UserArg.phoneField : UserArg → Option String
  | .row _ phone _ _ => phone
  | .number _ => none

/-- `sendDomainExpiryAlert` (notificationService lines 214-256).  `domain`
is used only to build message text, so its type is left abstract;
`emailSend` / `smsSend` are the outcomes `sendEmailAlert` / `sendSMSAlert`
would produce if invoked (`.error` modelling a throw).  Each channel is
attempted only under its truthiness guard; each attempt pushes exactly one
outcome record (caught failures push a `failed` record and execution
continues with the next channel). -/
def sendDomainExpiryAlert (Domain : Type) (domain : Domain) (user : UserArg)
    (daysUntilExpiry : Int) (emailSend smsSend : Except String Unit) :
    List ChannelOutcome :=
  let emailResults : List ChannelOutcome :=
    if truthyStr user.emailField then
      match emailSend with
      | .ok _ => [⟨"email", "success", none⟩]
      | .error e => [⟨"email", "failed", some e⟩]
    else []
  let smsResults : List ChannelOutcome :=
    if truthyStr user.phoneField then
      match smsSend with
      | .ok _ => [⟨"sms", "success", none⟩]
      | .error e => [⟨"sms", "failed", some e⟩]
    else []
  emailResults ++ smsResults

/-- `sendSSLExpiryAlert` (notificationService lines 258-300): note the FOUR
parameters `(domain, sslCert, user, daysUntilExpiry)`; `daysUntilExpiry` is
`Option Int`, with `none` standing for `undefined` — the value it receives
at both engine call sites, which pass only three arguments. -/
def sendSSLExpiryAlert (Domain Cert : Type) (domain : Domain) (sslCert : Cert)
    (user : UserArg) (daysUntilExpiry : Option Int)
    (emailSend smsSend : Except String Unit) : List ChannelOutcome :=
  let emailResults : List ChannelOutcome :=
    if truthyStr user.emailField then
      match emailSend with
      | .ok _ => [⟨"email", "success", none⟩]
      | .error e => [⟨"email", "failed", some e⟩]
    else []
  let smsResults : List ChannelOutcome :=
    if truthyStr user.phoneField then
      match smsSend with
      | .ok _ => [⟨"sms", "success", none⟩]
      | .error e => [⟨"sms", "failed", some e⟩]
    else []
  emailResults ++ smsResults

/-- `sendDomainDowntimeAlert` (notificationService lines 302-344): same
channel structure as the other dispatchers. -/
def sendDomainDowntimeAlert (Domain : Type) (domain : Domain) (user : UserArg)
    (error : String) (emailSend smsSend : Except String Unit) :
    List ChannelOutcome :=
  let emailResults : List ChannelOutcome :=
    if truthyStr user.emailField then
      match emailSend with
      | .ok _ => [⟨"email", "success", none⟩]
      | .error e => [⟨"email", "failed", some e⟩]
    else []
  let smsResults : List ChannelOutcome :=
    if truthyStr user.phoneField then
      match smsSend with
      | .ok _ => [⟨"sms", "success", none⟩]
      | .error e => [⟨"sms", "failed", some e⟩]
    else []
  emailResults ++ smsResults

/-- A row of `notification_logs` as inserted by the sweeps: `(user_id,
domain_id, type, method, status, sent_at)`. -/
structure LogEntry where
  userId : Nat
  domainId : Nat
  type : String
  method : String
  status : String
  sentAt : Int
  deriving DecidableEq

/-- A row of the `alerts` table as read by the daily and SSL sweeps. -/
structure AlertRule where
  domainId : Nat
  type : String
  emailEnabled : Bool
  smsEnabled : Bool
  daysBeforeExpiry : Int
  deriving DecidableEq

/-- A row of the daily / uptime monitoring queries (`domains` joined with
`users`, status 'active').  `expiryDate` is the DATE column as a millisecond
timestamp. -/
structure DomainRow where
  id : Nat
  userId : Nat
  expiryDate : Int
  email : Option String
  phone : Option String
  firstName : String
  lastName : String
  deriving DecidableEq

/-- A row of the SSL monitoring query (`domains` joined with
`ssl_certificates` and `users`). -/
structure SSLRow where
  domainId : Nat
  userId : Nat
  email : Option String
  phone : Option String
  firstName : String
  lastName : String
  deriving DecidableEq

/-- The recent-notification query of `checkAndSendAlerts` (monitoring.js
lines 248-252 and 286-290): is there a `notification_logs` row for this
(domain, type) with `sent_at` within the last 24 hours? -/
def hasRecentNotification (log : List LogEntry) (domainId : Nat) (type : String)
    (now : Int) : Bool :=
  log.any fun e =>
    e.domainId == domainId && e.type == type &&
      decide (e.sentAt > now - 24 * 60 * 60 * 1000)

/-- The per-domain body of `performDailyMonitoring` (monitoring.js lines
57-89), acting on the notification log.  Returns the updated log, the
dispatcher outcomes (empty when no dispatch happened) and whether the domain
was marked expired.  `alerts` is the `alerts` table; the alert query matches
rows with `type = 'domain_expiry'` and `days_before_expiry >=
daysUntilExpiry`.  Note the call `sendDomainExpiryAlert(domain, domain,
daysUntilExpiry)`: the row itself is passed as `user`, and no deduplication
query precedes the dispatch or the log insert. -/
def dailyMonitoringStep (alerts : List AlertRule) (now : Int)
    (emailSend smsSend : Except String Unit) (log : List LogEntry)
    (domain : DomainRow) : List LogEntry × List ChannelOutcome × Bool :=
  let days := daysUntilExpiry domain.expiryDate now
  let ruleMatches := alerts.any fun a =>
    a.domainId == domain.id && a.type == "domain_expiry" &&
      decide (a.daysBeforeExpiry ≥ days)
  let markedExpired := decide (days ≤ 0)
  if decide (days ≤ 30) && decide (days > 0) && ruleMatches then
    let results := sendDomainExpiryAlert DomainRow domain
      (UserArg.row domain.email domain.phone domain.firstName domain.lastName)
      days emailSend smsSend
    (log ++ [⟨domain.userId, domain.id, "domain_expiry", "automated", "sent", now⟩],
     results, markedExpired)
  else (log, [], markedExpired)

/-- The alert-sending part of the per-record body of `performSSLMonitoring`
(monitoring.js lines 109-156), given the probe result `sslInfo` (`none` for
a null result, on which the body does nothing).  Note the call
`sendSSLExpiryAlert(record, record, daysUntilSSLExpiry)`: only three
arguments for four parameters, so the number lands in `user` and
`daysUntilExpiry` is `undefined`; the log insert still records status
'sent'. -/
def sslMonitoringStep (alerts : List AlertRule) (now : Int)
    (emailSend smsSend : Except String Unit) (log : List LogEntry)
    (record : SSLRow) (sslInfo : Option SSLInfo) :
    List LogEntry × List ChannelOutcome :=
  match sslInfo with
  | none => (log, [])
  | some info =>
    let days := daysUntilExpiry info.validUntil now
    let ruleMatches := alerts.any fun a =>
      a.domainId == record.domainId && a.type == "ssl_expiry" &&
        decide (a.daysBeforeExpiry ≥ days)
    if decide (days ≤ 30) && decide (days > 0) && ruleMatches then
      let results := sendSSLExpiryAlert SSLRow SSLRow record record
        (UserArg.number days) none emailSend smsSend
      (log ++ [⟨record.userId, record.domainId, "ssl_expiry", "automated", "sent", now⟩],
       results)
    else (log, [])

/-- The per-domain body of `performUptimeMonitoring` (monitoring.js lines
174-197), given the reachability probe outcome. -/
def uptimeMonitoringStep (alerts : List AlertRule) (now : Int)
    (emailSend smsSend : Except String Unit) (log : List LogEntry)
    (domain : DomainRow) (outcome : HttpOutcome) :
    List LogEntry × List ChannelOutcome :=
  let isUp := checkDomainUptime outcome
  let ruleExists := alerts.any fun a =>
    a.domainId == domain.id && a.type == "domain_downtime"
  if !isUp && ruleExists then
    let results := sendDomainDowntimeAlert DomainRow domain
      (UserArg.row domain.email domain.phone domain.firstName domain.lastName)
      "Domain appears to be down" emailSend smsSend
    (log ++ [⟨domain.userId, domain.id, "domain_downtime", "automated", "sent", now⟩],
     results)
  else (log, [])

/-- The `for` loop of `performDailyMonitoring` (monitoring.js lines 56-90):
each iteration runs inside its own `try` / `catch`.  Every domain is paired
with an optional injected fault (`some e` models an error thrown while
processing that domain — a storage failure, malformed data, or a rejected
await); a fault is caught at the loop boundary, logged to the console only,
and the loop continues with the next domain and an unchanged log. -/
def performDailyMonitoring (alerts : List AlertRule) (now : Int)
    (emailSend smsSend : Except String Unit)
    (domains : List (DomainRow × Option String)) (log : List LogEntry) :
    List LogEntry :=
  match domains with
  | [] => log
  | (domain, none) :: rest =>
      performDailyMonitoring alerts now emailSend smsSend rest
        (dailyMonitoringStep alerts now emailSend smsSend log domain).1
  | (_, some _) :: rest =>
      performDailyMonitoring alerts now emailSend smsSend rest log

/-- The `for` loop of `performSSLMonitoring` (monitoring.js lines 108-157),
with the same per-record `try` / `catch` structure; each record carries its
probe result and an optional injected fault. -/
def performSSLMonitoring (alerts : List AlertRule) (now : Int)
    (emailSend smsSend : Except String Unit)
    (records : List (SSLRow × Option SSLInfo × Option String))
    (log : List LogEntry) : List LogEntry :=
  match records with
  | [] => log
  | (record, sslInfo, none) :: rest =>
      performSSLMonitoring alerts now emailSend smsSend rest
        (sslMonitoringStep alerts now emailSend smsSend log record sslInfo).1
  | (_, _, some _) :: rest =>
      performSSLMonitoring alerts now emailSend smsSend rest log

/-- The `for` loop of `performUptimeMonitoring` (monitoring.js lines
173-198), with the same per-domain `try` / `catch` structure; each domain
carries its probe outcome and an optional injected fault. -/
def performUptimeMonitoring (alerts : List AlertRule) (now : Int)
    (emailSend smsSend : Except String Unit)
    (domains : List (DomainRow × HttpOutcome × Option String))
    (log : List LogEntry) : List LogEntry :=
  match domains with
  | [] => log
  | (domain, outcome, none) :: rest =>
      performUptimeMonitoring alerts now emailSend smsSend rest
        (uptimeMonitoringStep alerts now emailSend smsSend log domain outcome).1
  | (_, _, some _) :: rest =>
      performUptimeMonitoring alerts now emailSend smsSend rest log

/-- A row of the expiring-domains query in `checkAndSendAlerts`
(monitoring.js lines 230-241): `domains` joined with `users` and the
domain's `domain_expiry` alert rule, including the rule's channel flags. -/
structure ExpiryCandidate where
  id : Nat
  userId : Nat
  expiryDate : Int
  email : Option String
  phone : Option String
  firstName : String
  lastName : String
  daysBeforeExpiry : Int
  emailEnabled : Bool
  smsEnabled : Bool
  deriving DecidableEq

/-- A row of the expiring-SSL query in `checkAndSendAlerts` (monitoring.js
lines 267-279).  The select list is `d.*, s.*`, so the later `s.id`
overwrites `d.id` and `record.id` is the `ssl_certificates` row id; the
source keys both the deduplication query and the log insert on it. -/
structure SSLCandidate where
  id : Nat
  userId : Nat
  validUntil : Int
  email : Option String
  phone : Option String
  firstName : String
  lastName : String
  daysBeforeExpiry : Int
  emailEnabled : Bool
  smsEnabled : Bool
  deriving DecidableEq

/-- The per-record body of the `domain_expiry` loop of `checkAndSendAlerts`
(monitoring.js lines 243-264): threshold comparison, deduplication query,
then dispatch plus log insert.  Returns the updated log and the dispatcher
outcomes (empty when the threshold did not match or the deduplication gate
suppressed the send). -/
def alertCheckDomainExpiryStep (now : Int) (emailSend smsSend : Except String Unit)
    (log : List LogEntry) (record : ExpiryCandidate) :
    List LogEntry × List ChannelOutcome :=
  let days := daysUntilExpiry record.expiryDate now
  if days ≤ record.daysBeforeExpiry then
    if hasRecentNotification log record.id "domain_expiry" now then (log, [])
    else
      let results := sendDomainExpiryAlert ExpiryCandidate record
        (UserArg.row record.email record.phone record.firstName record.lastName)
        days emailSend smsSend
      (log ++ [⟨record.userId, record.id, "domain_expiry", "automated", "sent", now⟩],
       results)
  else (log, [])

/-- The per-record body of the `ssl_expiry` loop of `checkAndSendAlerts`
(monitoring.js lines 281-302).  The dispatch is the three-argument call
`sendSSLExpiryAlert(record, record, daysUntilSSLExpiry)`. -/
def alertCheckSSLExpiryStep (now : Int) (emailSend smsSend : Except String Unit)
    (log : List LogEntry) (record : SSLCandidate) :
    List LogEntry × List ChannelOutcome :=
  let days := daysUntilExpiry record.validUntil now
  if days ≤ record.daysBeforeExpiry then
    if hasRecentNotification log record.id "ssl_expiry" now then (log, [])
    else
      let results := sendSSLExpiryAlert SSLCandidate SSLCandidate record record
        (UserArg.number days) none emailSend smsSend
      (log ++ [⟨record.userId, record.id, "ssl_expiry", "automated", "sent", now⟩],
       results)
  else (log, [])

/-- The `domain_expiry` loop of `checkAndSendAlerts`: there is no per-record
`try` / `catch`, so an injected fault escapes the loop; entries inserted
before the fault persist, and the fault value is returned alongside the
log. -/
def alertCheckDomainExpiryLoop (now : Int) (emailSend smsSend : Except String Unit) :
    List (ExpiryCandidate × Option String) → List LogEntry →
    List LogEntry × Option String
  | [], log => (log, none)
  | (record, none) :: rest, log =>
      alertCheckDomainExpiryLoop now emailSend smsSend rest
        (alertCheckDomainExpiryStep now emailSend smsSend log record).1
  | (_, some e) :: _, log => (log, some e)

/-- The `ssl_expiry` loop of `checkAndSendAlerts`, with the same structure. -/
def alertCheckSSLExpiryLoop (now : Int) (emailSend smsSend : Except String Unit) :
    List (SSLCandidate × Option String) → List LogEntry →
    List LogEntry × Option String
  | [], log => (log, none)
  | (record, none) :: rest, log =>
      alertCheckSSLExpiryLoop now emailSend smsSend rest
        (alertCheckSSLExpiryStep now emailSend smsSend log record).1
  | (_, some e) :: _, log => (log, some e)

/-- `checkAndSendAlerts` (monitoring.js lines 227-306): both loops run
inside one function-level `try` / `catch`, so a fault raised while
processing one record aborts the remainder of that loop and skips the other
loop entirely — the catch only logs to the console. -/
def checkAndSendAlerts (now : Int) (emailSend smsSend : Except String Unit)
    (expiringDomains : List (ExpiryCandidate × Option String))
    (expiringSSL : List (SSLCandidate × Option String))
    (log : List LogEntry) : List LogEntry :=
  match alertCheckDomainExpiryLoop now emailSend smsSend expiringDomains log with
  | (log1, none) => (alertCheckSSLExpiryLoop now emailSend smsSend expiringSSL log1).1
  | (log1, some _) => log1

/-- The SQL window of the expiring-domains query (monitoring.js lines
238-239): `d.expiry_date <= CURRENT_DATE + INTERVAL '30 days' AND
d.expiry_date > CURRENT_DATE`, on UTC day numbers. -/
def domainExpirySqlWindow (expiryDay currentDate : Int) : Bool :=
  decide (expiryDay ≤ currentDate + 30) && decide (expiryDay > currentDate)

/-- The SQL window of the expiring-SSL query (monitoring.js lines 276-277):
`s.valid_until <= CURRENT_DATE + INTERVAL '30 days' AND s.valid_until >
CURRENT_DATE`. -/
def sslExpirySqlWindow (validUntilDay currentDate : Int) : Bool :=
  decide (validUntilDay ≤ currentDate + 30) && decide (validUntilDay > currentDate)

/-- The `daysBeforeExpiry` validator of the alert-creation route
(`body('daysBeforeExpiry').optional().isInt(min 1, max 90)` in the alerts
router). -/
def alertRouteDaysBeforeExpiryValid (d : Int) : Bool :=
  decide (1 ≤ d) && decide (d ≤ 90)

/-- Helper: JavaScript `Math.ceil(a / 86400000)` on an integer numerator
agrees with the mathematical ceiling of the rational quotient. -/
theorem jsCeilDiv_eq_rat_ceil (a : Int) :
    jsCeilDiv a 86400000 = ⌈(a : ℚ) / (86400000 : ℚ)⌉ := by
  unfold jsCeilDiv
  rw [show ⌈(a : ℚ) / (86400000 : ℚ)⌉ = -⌊-((a : ℚ) / (86400000 : ℚ))⌋ by
        rw [← Int.ceil_neg, neg_neg],
      ← neg_div]
  have h : ((-a : Int) : ℚ) / ((86400000 : ℕ) : ℚ) = -(a : ℚ) / (86400000 : ℚ) := by
    push_cast
    ring
  rw [← h, Rat.floor_intCast_div_natCast]
  norm_num

/-- Helper: `msPerDay` evaluates to 86400000 milliseconds. -/
theorem msPerDay_eq : msPerDay = 86400000 := by decide

/-- C4: the days-remaining computation used in all sweeps equals the
ceiling of `(targetDate - now) / 86400s` (as a rational ceiling), and on
DATE-valued targets (`d * msPerDay`, midnight UTC of day `d`) it is negative
exactly when day `d` is strictly before `now`'s UTC calendar date. -/
theorem claim_C4_days_remaining :
    (∀ target now : Int,
      daysUntilExpiry target now = ⌈((target - now : Int) : ℚ) / (86400000 : ℚ)⌉) ∧
    (∀ d now : Int, daysUntilExpiry (d * msPerDay) now < 0 ↔ d < utcDay now) := by
  constructor
  · intro target now
    unfold daysUntilExpiry
    rw [msPerDay_eq, jsCeilDiv_eq_rat_ceil]
  · intro d now
    unfold daysUntilExpiry utcDay jsCeilDiv msPerDay
    omega

/-- C5: the certificate status classification is a total function of
`(validUntil, now)`; the HTTPS-based and TLS-based probe paths compute the
same classification, which is `expired` iff `validUntil < now`,
`expiring_soon` iff `now <= validUntil < now + 30 days`, and `valid`
otherwise. -/
theorem claim_C5_certificate_status :
    ∀ validUntil now : Int,
      checkSSLCertificateStatus validUntil now = checkWithTLSStatus validUntil now ∧
      (checkSSLCertificateStatus validUntil now = "expired" ↔ validUntil < now) ∧
      (checkSSLCertificateStatus validUntil now = "expiring_soon" ↔
        now ≤ validUntil ∧ validUntil < now + 30 * 24 * 60 * 60 * 1000) ∧
      (checkSSLCertificateStatus validUntil now = "valid" ↔
        now + 30 * 24 * 60 * 60 * 1000 ≤ validUntil) := by
  intro v n
  unfold checkSSLCertificateStatus checkWithTLSStatus
  refine ⟨rfl, ?_, ?_, ?_⟩ <;>
    split_ifs with h1 h2 <;>
      first
        | exact iff_of_true rfl (by omega)
        | exact iff_of_false (by decide) (by omega)

/-- C6: the reachability check classifies the target as up exactly when the
GET request yields a response with status code in the 200-399 range; a
request error (connection refusal, DNS failure) or a timeout classifies as
down, and every outcome of the request resolves to a boolean — the function
is total over the outcome space. -/
theorem claim_C6_uptime_classification :
    ∀ outcome : HttpOutcome,
      (checkDomainUptime outcome = true ↔
        ∃ statusCode : Int, outcome = HttpOutcome.response statusCode ∧
          200 ≤ statusCode ∧ statusCode ≤ 399) ∧
      checkDomainUptime HttpOutcome.reqError = false ∧
      checkDomainUptime HttpOutcome.timeout = false := by
  intro o
  refine ⟨?_, rfl, rfl⟩
  cases o with
  | response c =>
      simp only [checkDomainUptime, Bool.and_eq_true, decide_eq_true_eq]
      constructor
      · intro h
        exact ⟨c, rfl, h.1, by omega⟩
      · rintro ⟨c2, hc, h1, h2⟩
        cases hc
        exact ⟨h1, by omega⟩
  | reqError =>
      simp [checkDomainUptime]
  | timeout =>
      simp [checkDomainUptime]

/-- C7 counterexample: on a TLS handshake failure (socket error
"ECONNREFUSED") the prober rejects with the raw transport error, not with a
typed certificate-unavailable failure — both on the direct TLS path and on
the HTTPS path that falls back to it. -/
theorem claim_C7_counterexample :
    checkWithTLS (TLSOutcome.socketError "ECONNREFUSED") 0 =
      Except.error (SSLProbeError.raw "ECONNREFUSED") ∧
    checkSSLCertificate
        (HttpsProbeOutcome.reqError "socket hang up"
          (TLSOutcome.socketError "ECONNREFUSED")) 0 =
      Except.error (SSLProbeError.raw "ECONNREFUSED") :=
  ⟨rfl, rfl⟩

/-- C7 amended: when a connection is established but no usable peer
certificate is presented, and on timeouts, the prober rejects with an error
it constructs itself ("No valid certificate found", "Connection timeout",
"Request timeout"); but when the TLS handshake itself fails with a transport
error, the raw error is propagated unchanged to the caller (the HTTPS path
defers to the TLS fallback's result). -/
theorem claim_C7_amended_error_typing :
    ∀ (e : String) (now : Int),
      checkWithTLS (TLSOutcome.socketError e) now =
        Except.error (SSLProbeError.raw e) ∧
      checkWithTLS (TLSOutcome.connected none) now =
        Except.error (SSLProbeError.constructed "No valid certificate found") ∧
      checkWithTLS TLSOutcome.timeout now =
        Except.error (SSLProbeError.constructed "Connection timeout") ∧
      (∀ fallback : TLSOutcome,
        checkSSLCertificate (HttpsProbeOutcome.reqError e fallback) now =
          checkWithTLS fallback now) ∧
      checkSSLCertificate (HttpsProbeOutcome.response none) now =
        Except.error (SSLProbeError.constructed "No valid certificate found") ∧
      checkSSLCertificate HttpsProbeOutcome.timeout now =
        Except.error (SSLProbeError.constructed "Request timeout") :=
  fun _ _ => ⟨rfl, rfl, rfl, fun _ => rfl, rfl, rfl⟩

/-- C2: channel isolation in the dispatcher — with both channels attempted
(truthy email and phone), an email throw together with an SMS success (or
vice versa) still yields the full two-element outcome list, one failure
record and one success record, neither lost; in particular the email
failure does not prevent the SMS attempt from being made and recorded. -/
theorem claim_C2_channel_isolation :
    ∀ (Domain : Type) (domain : Domain) (email phone : Option String)
      (firstName lastName : String) (days : Int) (e1 e2 : String),
      truthyStr email = true → truthyStr phone = true →
      sendDomainExpiryAlert Domain domain
          (UserArg.row email phone firstName lastName)
          days (Except.error e1) (Except.ok ()) =
        [⟨"email", "failed", some e1⟩, ⟨"sms", "success", none⟩] ∧
      sendDomainExpiryAlert Domain domain
          (UserArg.row email phone firstName lastName)
          days (Except.ok ()) (Except.error e2) =
        [⟨"email", "success", none⟩, ⟨"sms", "failed", some e2⟩] := by
  intro Domain domain email phone firstName lastName days e1 e2 he hp
  unfold sendDomainExpiryAlert
  simp [UserArg.emailField, UserArg.phoneField, he, hp]

/-- C2 witness: a concrete dispatch with a throwing email transport and a
succeeding SMS transport (and vice versa). -/
theorem claim_C2_channel_isolation_witness :
    sendDomainExpiryAlert Unit ()
        (UserArg.row (some "owner@example.com") (some "15550100") "Ada" "Lovelace")
        10 (Except.error "smtp down") (Except.ok ()) =
      [⟨"email", "failed", some "smtp down"⟩, ⟨"sms", "success", none⟩] ∧
    sendDomainExpiryAlert Unit ()
        (UserArg.row (some "owner@example.com") (some "15550100") "Ada" "Lovelace")
        10 (Except.ok ()) (Except.error "provider error") =
      [⟨"email", "success", none⟩, ⟨"sms", "failed", some "provider error"⟩] :=
  claim_C2_channel_isolation Unit () (some "owner@example.com") (some "15550100")
    "Ada" "Lovelace" 10 "smtp down" "provider error" (by decide) (by decide)

/-- C8 counterexample: a record whose alert rule has `email_enabled = false`
but whose owner has an email address — the dispatch path never consults the
flag, attempts the email anyway, and (with a throwing transport) produces a
per-channel outcome with status failed for the disabled channel. -/
theorem claim_C8_counterexample :
    ((⟨7, 3, 10 * 86400000, some "owner@example.com", none, "Ada", "Lovelace",
        30, false, false⟩ : ExpiryCandidate).emailEnabled = false) ∧
    (alertCheckDomainExpiryStep 0 (Except.error "smtp auth failed") (Except.ok ()) []
        ⟨7, 3, 10 * 86400000, some "owner@example.com", none, "Ada", "Lovelace",
          30, false, false⟩).2 =
      [⟨"email", "failed", some "smtp auth failed"⟩] := by
  exact ⟨rfl, by decide⟩

/-- C8 amended: a channel for which the recipient lacks the required contact
data is silently skipped — no outcome record at all (in particular none with
status failed) is produced for it; but the alert rule's per-channel enable
flags are never consulted by the dispatch path: the alert-matching step is
invariant under both flags, so a flag-disabled channel whose contact data is
present is still attempted. -/
theorem claim_C8_amended_skip_semantics :
    (∀ (Domain : Type) (domain : Domain) (user : UserArg) (days : Int)
        (emailSend smsSend : Except String Unit),
      (truthyStr user.phoneField = false →
        (sendDomainExpiryAlert Domain domain user days emailSend smsSend).all
          (fun o => o.method != "sms") = true) ∧
      (truthyStr user.emailField = false →
        (sendDomainExpiryAlert Domain domain user days emailSend smsSend).all
          (fun o => o.method != "email") = true)) ∧
    (∀ (now : Int) (emailSend smsSend : Except String Unit) (log : List LogEntry)
        (record : ExpiryCandidate) (b1 b2 : Bool),
      alertCheckDomainExpiryStep now emailSend smsSend log
          { record with emailEnabled := b1, smsEnabled := b2 } =
        alertCheckDomainExpiryStep now emailSend smsSend log record) := by
  constructor
  · intro Domain domain user days emailSend smsSend
    constructor
    · intro hp
      unfold sendDomainExpiryAlert
      rw [hp]
      cases he : truthyStr user.emailField <;> cases emailSend <;> rfl
    · intro he
      unfold sendDomainExpiryAlert
      rw [he]
      cases hp : truthyStr user.phoneField <;> cases smsSend <;> rfl
  · intro now emailSend smsSend log record b1 b2
    cases record
    rfl

/-- C8 amended witness: with no phone number the concrete dispatch records
no SMS outcome, and a concrete alert-matching step is unchanged when both
channel flags are flipped. -/
theorem claim_C8_amended_witness :
    ((sendDomainExpiryAlert Unit ()
        (UserArg.row (some "owner@example.com") none "Ada" "Lovelace")
        5 (Except.ok ()) (Except.ok ())).all (fun o => o.method != "sms") = true) ∧
    alertCheckDomainExpiryStep 0 (Except.ok ()) (Except.ok ()) []
        ⟨7, 3, 10 * 86400000, some "owner@example.com", none, "Ada", "Lovelace",
          30, false, true⟩ =
      alertCheckDomainExpiryStep 0 (Except.ok ()) (Except.ok ()) []
        ⟨7, 3, 10 * 86400000, some "owner@example.com", none, "Ada", "Lovelace",
          30, true, false⟩ :=
  ⟨(claim_C8_amended_skip_semantics.1 Unit ()
      (UserArg.row (some "owner@example.com") none "Ada" "Lovelace")
      5 (Except.ok ()) (Except.ok ())).1 (by decide),
   claim_C8_amended_skip_semantics.2 0 (Except.ok ()) (Except.ok ()) []
     ⟨7, 3, 10 * 86400000, some "owner@example.com", none, "Ada", "Lovelace",
       30, true, false⟩ false true⟩

/-- Helper: in the `domain_expiry` loop of `checkAndSendAlerts`, a fault on
one record aborts the loop, returning the log accumulated over the
fault-free records before it together with the fault. -/
theorem alertCheckDomainExpiryLoop_fault (now : Int)
    (emailSend smsSend : Except String Unit) :
    ∀ (pre : List (ExpiryCandidate × Option String)),
      (∀ x ∈ pre, x.2 = none) →
      ∀ (record : ExpiryCandidate) (fault : String)
        (rest : List (ExpiryCandidate × Option String)) (log : List LogEntry),
        alertCheckDomainExpiryLoop now emailSend smsSend
            (pre ++ (record, some fault) :: rest) log =
          ((alertCheckDomainExpiryLoop now emailSend smsSend pre log).1, some fault) := by
  intro pre
  induction pre with
  | nil =>
      intro _ record fault rest log
      rfl
  | cons hd tl ih =>
      intro hpre record fault rest log
      obtain ⟨r, f⟩ := hd
      have hf : f = none := hpre (r, f) (List.mem_cons_self _ _)
      subst hf
      simp only [List.cons_append, alertCheckDomainExpiryLoop]
      exact ih (fun x hx => hpre x (List.mem_cons_of_mem _ hx)) record fault rest _

/-- C3 counterexample: in the hourly alert-matching sweep
(`checkAndSendAlerts`) a fault raised while processing the first record
aborts the whole sweep — the second record, which demonstrably fires when
the sweep reaches it, is not processed and produces no log entry, contrary
to the claim that all four sweeps catch per-target errors at the loop
boundary and continue. -/
theorem claim_C3_counterexample :
    checkAndSendAlerts 0 (Except.ok ()) (Except.ok ())
        [(⟨1, 1, 5 * 86400000, some "a@example.com", none, "A", "A",
            30, true, false⟩, some "connection terminated unexpectedly"),
         (⟨2, 2, 10 * 86400000, some "b@example.com", none, "B", "B",
            30, true, false⟩, none)]
        [] [] = [] ∧
    checkAndSendAlerts 0 (Except.ok ()) (Except.ok ())
        [(⟨2, 2, 10 * 86400000, some "b@example.com", none, "B", "B",
            30, true, false⟩, none)]
        [] [] = [⟨2, 2, "domain_expiry", "automated", "sent", 0⟩] :=
  ⟨by decide, by decide⟩

/-- C3 amended: the daily, SSL and uptime sweeps catch a per-target fault at
the loop boundary and continue processing the remaining targets with an
unchanged log (processing a list with a faulted target equals processing
the targets after it from the state reached before it); the hourly
alert-matching sweep catches only at sweep level, so a fault on one record
aborts the remaining records and the whole SSL loop. -/
theorem claim_C3_amended_sweep_isolation :
    (∀ (alerts : List AlertRule) (now : Int) (emailSend smsSend : Except String Unit)
        (pre : List (DomainRow × Option String)) (domain : DomainRow) (fault : String)
        (rest : List (DomainRow × Option String)) (log : List LogEntry),
      performDailyMonitoring alerts now emailSend smsSend
          (pre ++ (domain, some fault) :: rest) log =
        performDailyMonitoring alerts now emailSend smsSend rest
          (performDailyMonitoring alerts now emailSend smsSend pre log)) ∧
    (∀ (alerts : List AlertRule) (now : Int) (emailSend smsSend : Except String Unit)
        (pre : List (SSLRow × Option SSLInfo × Option String)) (record : SSLRow)
        (info : Option SSLInfo) (fault : String)
        (rest : List (SSLRow × Option SSLInfo × Option String)) (log : List LogEntry),
      performSSLMonitoring alerts now emailSend smsSend
          (pre ++ (record, info, some fault) :: rest) log =
        performSSLMonitoring alerts now emailSend smsSend rest
          (performSSLMonitoring alerts now emailSend smsSend pre log)) ∧
    (∀ (alerts : List AlertRule) (now : Int) (emailSend smsSend : Except String Unit)
        (pre : List (DomainRow × HttpOutcome × Option String)) (domain : DomainRow)
        (outcome : HttpOutcome) (fault : String)
        (rest : List (DomainRow × HttpOutcome × Option String)) (log : List LogEntry),
      performUptimeMonitoring alerts now emailSend smsSend
          (pre ++ (domain, outcome, some fault) :: rest) log =
        performUptimeMonitoring alerts now emailSend smsSend rest
          (performUptimeMonitoring alerts now emailSend smsSend pre log)) ∧
    (∀ (now : Int) (emailSend smsSend : Except String Unit)
        (pre : List (ExpiryCandidate × Option String)) (record : ExpiryCandidate)
        (fault : String) (rest : List (ExpiryCandidate × Option String))
        (expiringSSL : List (SSLCandidate × Option String)) (log : List LogEntry),
      (∀ x ∈ pre, x.2 = none) →
      checkAndSendAlerts now emailSend smsSend
          (pre ++ (record, some fault) :: rest) expiringSSL log =
        (alertCheckDomainExpiryLoop now emailSend smsSend pre log).1) := by
  refine ⟨?_, ?_, ?_, ?_⟩
  · intro alerts now emailSend smsSend pre domain fault rest log
    induction pre generalizing log with
    | nil => rfl
    | cons hd tl ih =>
        obtain ⟨d, f⟩ := hd
        cases f with
        | none =>
            simp only [List.cons_append, performDailyMonitoring]
            exact ih _
        | some e =>
            simp only [List.cons_append, performDailyMonitoring]
            exact ih _
  · intro alerts now emailSend smsSend pre record info fault rest log
    induction pre generalizing log with
    | nil => rfl
    | cons hd tl ih =>
        obtain ⟨r, i, f⟩ := hd
        cases f with
        | none =>
            simp only [List.cons_append, performSSLMonitoring]
            exact ih _
        | some e =>
            simp only [List.cons_append, performSSLMonitoring]
            exact ih _
  · intro alerts now emailSend smsSend pre domain outcome fault rest log
    induction pre generalizing log with
    | nil => rfl
    | cons hd tl ih =>
        obtain ⟨d, o, f⟩ := hd
        cases f with
        | none =>
            simp only [List.cons_append, performUptimeMonitoring]
            exact ih _
        | some e =>
            simp only [List.cons_append, performUptimeMonitoring]
            exact ih _
  · intro now emailSend smsSend pre record fault rest expiringSSL log hpre
    unfold checkAndSendAlerts
    rw [alertCheckDomainExpiryLoop_fault now emailSend smsSend pre hpre record
      fault rest log]

/-- C3 amended witness: a concrete faulted target in the daily sweep leaves
the log as the remaining targets produce it, and a concrete fault in the
alert-matching sweep truncates the sweep at the fault. -/
theorem claim_C3_amended_witness :
    performDailyMonitoring [⟨2, "domain_expiry", true, false, 30⟩] 0
        (Except.ok ()) (Except.ok ())
        [(⟨1, 1, 5 * 86400000, some "a@example.com", none, "A", "A"⟩, some "boom"),
         (⟨2, 2, 10 * 86400000, some "b@example.com", none, "B", "B"⟩, none)] [] =
      performDailyMonitoring [⟨2, "domain_expiry", true, false, 30⟩] 0
        (Except.ok ()) (Except.ok ())
        [(⟨2, 2, 10 * 86400000, some "b@example.com", none, "B", "B"⟩, none)]
        (performDailyMonitoring [⟨2, "domain_expiry", true, false, 30⟩] 0
          (Except.ok ()) (Except.ok ()) [] []) ∧
    checkAndSendAlerts 0 (Except.ok ()) (Except.ok ())
        [(⟨2, 2, 10 * 86400000, some "b@example.com", none, "B", "B",
            30, true, false⟩, none),
         (⟨1, 1, 5 * 86400000, some "a@example.com", none, "A", "A",
            30, true, false⟩, some "boom")]
        [] [] =
      (alertCheckDomainExpiryLoop 0 (Except.ok ()) (Except.ok ())
        [(⟨2, 2, 10 * 86400000, some "b@example.com", none, "B", "B",
            30, true, false⟩, none)] []).1 :=
  ⟨claim_C3_amended_sweep_isolation.1 [⟨2, "domain_expiry", true, false, 30⟩] 0
      (Except.ok ()) (Except.ok ()) []
      ⟨1, 1, 5 * 86400000, some "a@example.com", none, "A", "A"⟩ "boom"
      [(⟨2, 2, 10 * 86400000, some "b@example.com", none, "B", "B"⟩, none)] [],
   claim_C3_amended_sweep_isolation.2.2.2 0 (Except.ok ()) (Except.ok ())
      [(⟨2, 2, 10 * 86400000, some "b@example.com", none, "B", "B",
          30, true, false⟩, none)]
      ⟨1, 1, 5 * 86400000, some "a@example.com", none, "A", "A", 30, true, false⟩
      "boom" [] [] [] (by decide)⟩

/-- C1 counterexample: two alert triggers for the same (target,
domain_expiry) pair one hour apart — the first produced by the hourly
alert-matching sweep (which logs an entry at time 0), the second by the
daily sweep at time 3600000 (which consults no deduplication gate) —
append two NotificationLog entries within 24 hours, and the second trigger
still contacts the email channel. -/
theorem claim_C1_counterexample :
    (alertCheckDomainExpiryStep 0 (Except.ok ()) (Except.ok ()) []
        ⟨1, 1, 10 * 86400000, some "owner@example.com", none, "O", "W",
          30, true, false⟩).1 =
      [⟨1, 1, "domain_expiry", "automated", "sent", 0⟩] ∧
    (dailyMonitoringStep [⟨1, "domain_expiry", true, false, 30⟩] 3600000
        (Except.ok ()) (Except.ok ())
        [⟨1, 1, "domain_expiry", "automated", "sent", 0⟩]
        ⟨1, 1, 10 * 86400000, some "owner@example.com", none, "O", "W"⟩).1 =
      [⟨1, 1, "domain_expiry", "automated", "sent", 0⟩,
       ⟨1, 1, "domain_expiry", "automated", "sent", 3600000⟩] ∧
    (dailyMonitoringStep [⟨1, "domain_expiry", true, false, 30⟩] 3600000
        (Except.ok ()) (Except.ok ())
        [⟨1, 1, "domain_expiry", "automated", "sent", 0⟩]
        ⟨1, 1, 10 * 86400000, some "owner@example.com", none, "O", "W"⟩).2.1 =
      [⟨"email", "success", none⟩] :=
  ⟨by decide, by decide, by decide⟩

/-- C1 amended: the deduplication guarantee holds within the hourly
alert-matching sweep — when a first trigger for (target, domain_expiry)
fires and logs at `now1`, a second trigger for the same pair at `now2`
within 24 hours is suppressed: the dispatcher is not invoked (empty outcome
list, so no channel is contacted) and no new log entry is written, leaving
exactly one appended entry across the pair.  The daily and 6-hourly sweeps
consult no gate, so the guarantee does not extend to pairs involving them
(see the counterexample). -/
theorem claim_C1_amended_dedup_gate :
    ∀ (now1 now2 : Int) (e1 s1 e2 s2 : Except String Unit)
      (log : List LogEntry) (record : ExpiryCandidate),
      daysUntilExpiry record.expiryDate now1 ≤ record.daysBeforeExpiry →
      hasRecentNotification log record.id "domain_expiry" now1 = false →
      now1 ≤ now2 →
      now2 - now1 < 24 * 60 * 60 * 1000 →
      (alertCheckDomainExpiryStep now1 e1 s1 log record).1 =
        log ++ [⟨record.userId, record.id, "domain_expiry", "automated", "sent", now1⟩] ∧
      alertCheckDomainExpiryStep now2 e2 s2
          (alertCheckDomainExpiryStep now1 e1 s1 log record).1 record =
        ((alertCheckDomainExpiryStep now1 e1 s1 log record).1, []) := by
  intro now1 now2 e1 s1 e2 s2 log record hdays hno h12 h24
  have hstep1 : (alertCheckDomainExpiryStep now1 e1 s1 log record).1 =
      log ++ [⟨record.userId, record.id, "domain_expiry", "automated", "sent", now1⟩] := by
    unfold alertCheckDomainExpiryStep
    simp [hdays, hno]
  refine ⟨hstep1, ?_⟩
  by_cases hd2 : daysUntilExpiry record.expiryDate now2 ≤ record.daysBeforeExpiry
  · have hrec2 : hasRecentNotification
        (log ++ [⟨record.userId, record.id, "domain_expiry", "automated", "sent", now1⟩])
        record.id "domain_expiry" now2 = true := by
      unfold hasRecentNotification
      rw [List.any_append]
      simp only [List.any_cons, List.any_nil, Bool.or_eq_true, Bool.and_eq_true,
        beq_self_eq_true, decide_eq_true_eq, Bool.or_false, true_and]
      exact Or.inr (by omega)
    rw [hstep1]
    unfold alertCheckDomainExpiryStep
    simp [hd2, hrec2]
  · unfold alertCheckDomainExpiryStep
    simp [hd2]

/-- C1 amended witness: a concrete first trigger at time 0 logs one entry,
and a concrete second trigger one hour later is suppressed with no dispatch
and no new entry. -/
theorem claim_C1_amended_witness :
    (alertCheckDomainExpiryStep 0 (Except.ok ()) (Except.ok ()) []
        ⟨1, 1, 10 * 86400000, some "owner@example.com", none, "O", "W",
          30, true, false⟩).1 =
      [] ++ [⟨1, 1, "domain_expiry", "automated", "sent", 0⟩] ∧
    alertCheckDomainExpiryStep 3600000 (Except.ok ()) (Except.ok ())
        (alertCheckDomainExpiryStep 0 (Except.ok ()) (Except.ok ()) []
          ⟨1, 1, 10 * 86400000, some "owner@example.com", none, "O", "W",
            30, true, false⟩).1
        ⟨1, 1, 10 * 86400000, some "owner@example.com", none, "O", "W",
          30, true, false⟩ =
      ((alertCheckDomainExpiryStep 0 (Except.ok ()) (Except.ok ()) []
          ⟨1, 1, 10 * 86400000, some "owner@example.com", none, "O", "W",
            30, true, false⟩).1, []) :=
  claim_C1_amended_dedup_gate 0 3600000 (Except.ok ()) (Except.ok ())
    (Except.ok ()) (Except.ok ()) []
    ⟨1, 1, 10 * 86400000, some "owner@example.com", none, "O", "W", 30, true, false⟩
    (by decide) (by decide) (by decide) (by decide)

/-- Helper: a three-argument call of the four-parameter `sendSSLExpiryAlert`
binds the number to `user`; property access on a number is never truthy, so
neither channel guard passes and the dispatcher returns the empty outcome
list. -/
theorem sendSSLExpiryAlert_number_user (Domain Cert : Type) (domain : Domain)
    (sslCert : Cert) (n : Int) (emailSend smsSend : Except String Unit) :
    sendSSLExpiryAlert Domain Cert domain sslCert (UserArg.number n) none
      emailSend smsSend = [] := rfl

/-- C9: every ssl_expiry trigger invokes the four-parameter dispatcher with
three arguments, binding the numeric days value to `user`; consequently no
email or SMS delivery is attempted (the outcome list is empty — every
attempt would have pushed a record), yet both the 6-hourly SSL sweep and the
hourly alert-matching sweep still append a notification_logs entry with
status 'sent' on a firing trigger. -/
theorem claim_C9_ssl_dispatch_arity :
    (∀ (Domain Cert : Type) (domain : Domain) (sslCert : Cert) (n : Int)
        (emailSend smsSend : Except String Unit),
      sendSSLExpiryAlert Domain Cert domain sslCert (UserArg.number n) none
        emailSend smsSend = []) ∧
    (∀ (alerts : List AlertRule) (now : Int) (emailSend smsSend : Except String Unit)
        (log : List LogEntry) (record : SSLRow) (info : SSLInfo),
      daysUntilExpiry info.validUntil now ≤ 30 →
      daysUntilExpiry info.validUntil now > 0 →
      (alerts.any fun a =>
        a.domainId == record.domainId && a.type == "ssl_expiry" &&
          decide (a.daysBeforeExpiry ≥ daysUntilExpiry info.validUntil now)) = true →
      sslMonitoringStep alerts now emailSend smsSend log record (some info) =
        (log ++ [⟨record.userId, record.domainId, "ssl_expiry", "automated", "sent", now⟩],
         [])) ∧
    (∀ (now : Int) (emailSend smsSend : Except String Unit) (log : List LogEntry)
        (record : SSLCandidate),
      daysUntilExpiry record.validUntil now ≤ record.daysBeforeExpiry →
      hasRecentNotification log record.id "ssl_expiry" now = false →
      alertCheckSSLExpiryStep now emailSend smsSend log record =
        (log ++ [⟨record.userId, record.id, "ssl_expiry", "automated", "sent", now⟩],
         [])) := by
  refine ⟨?_, ?_, ?_⟩
  · intro Domain Cert domain sslCert n emailSend smsSend
    exact sendSSLExpiryAlert_number_user Domain Cert domain sslCert n emailSend smsSend
  · intro alerts now emailSend smsSend log record info h1 h2 h3
    unfold sslMonitoringStep
    simp [h1, h2, h3, sendSSLExpiryAlert_number_user]
  · intro now emailSend smsSend log record h1 h2
    unfold alertCheckSSLExpiryStep
    simp [h1, h2, sendSSLExpiryAlert_number_user]

/-- C9 witness: concrete firing triggers in the SSL sweep and in the
alert-matching sweep — the appended entry says 'sent' while the outcome
list is empty. -/
theorem claim_C9_ssl_dispatch_arity_witness :
    sendSSLExpiryAlert Unit Unit () () (UserArg.number 10) none
        (Except.ok ()) (Except.ok ()) = [] ∧
    sslMonitoringStep [⟨5, "ssl_expiry", true, false, 30⟩] 0
        (Except.ok ()) (Except.ok ()) []
        ⟨5, 9, some "owner@example.com", some "15550100", "O", "W"⟩
        (some ⟨"Example CA", 0, 10 * 86400000, "expiring_soon"⟩) =
      ([] ++ [⟨9, 5, "ssl_expiry", "automated", "sent", 0⟩], []) ∧
    alertCheckSSLExpiryStep 0 (Except.ok ()) (Except.ok ()) []
        ⟨11, 9, 10 * 86400000, some "owner@example.com", some "15550100",
          "O", "W", 30, true, false⟩ =
      ([] ++ [⟨9, 11, "ssl_expiry", "automated", "sent", 0⟩], []) :=
  ⟨claim_C9_ssl_dispatch_arity.1 Unit Unit () () 10 (Except.ok ()) (Except.ok ()),
   claim_C9_ssl_dispatch_arity.2.1 [⟨5, "ssl_expiry", true, false, 30⟩] 0
     (Except.ok ()) (Except.ok ()) []
     ⟨5, 9, some "owner@example.com", some "15550100", "O", "W"⟩
     ⟨"Example CA", 0, 10 * 86400000, "expiring_soon"⟩
     (by decide) (by decide) (by decide),
   claim_C9_ssl_dispatch_arity.2.2 0 (Except.ok ()) (Except.ok ()) []
     ⟨11, 9, 10 * 86400000, some "owner@example.com", some "15550100",
       "O", "W", 30, true, false⟩
     (by decide) (by decide)⟩

/-- C10: rule creation accepts days_before_expiry thresholds up to 90, but
an expiry alert can fire only when 0 < daysUntilExpiry ≤ 30 regardless of
the threshold: the daily sweep's guard and the SSL sweep's guard hard-code
the bound, and any record selected by either 30-day SQL window of the
hourly alert-matching sweep has its computed daysUntilExpiry inside (0, 30]
(for DATE-valued expiry columns and any instant `now` on the query's
CURRENT_DATE), so a rule with a threshold above 30 first fires once at most
30 days remain. -/
theorem claim_C10_thirty_day_cap :
    alertRouteDaysBeforeExpiryValid 90 = true ∧
    (∀ (alerts : List AlertRule) (now : Int) (emailSend smsSend : Except String Unit)
        (log : List LogEntry) (domain : DomainRow),
      (dailyMonitoringStep alerts now emailSend smsSend log domain).1 ≠ log →
      0 < daysUntilExpiry domain.expiryDate now ∧
        daysUntilExpiry domain.expiryDate now ≤ 30) ∧
    (∀ (alerts : List AlertRule) (now : Int) (emailSend smsSend : Except String Unit)
        (log : List LogEntry) (record : SSLRow) (info : SSLInfo),
      (sslMonitoringStep alerts now emailSend smsSend log record (some info)).1 ≠ log →
      0 < daysUntilExpiry info.validUntil now ∧
        daysUntilExpiry info.validUntil now ≤ 30) ∧
    (∀ expiryDay currentDate now : Int,
      domainExpirySqlWindow expiryDay currentDate = true →
      currentDate * msPerDay ≤ now → now < (currentDate + 1) * msPerDay →
      0 < daysUntilExpiry (expiryDay * msPerDay) now ∧
        daysUntilExpiry (expiryDay * msPerDay) now ≤ 30) ∧
    (∀ validUntilDay currentDate now : Int,
      sslExpirySqlWindow validUntilDay currentDate = true →
      currentDate * msPerDay ≤ now → now < (currentDate + 1) * msPerDay →
      0 < daysUntilExpiry (validUntilDay * msPerDay) now ∧
        daysUntilExpiry (validUntilDay * msPerDay) now ≤ 30) := by
  refine ⟨by decide, ?_, ?_, ?_, ?_⟩
  · intro alerts now emailSend smsSend log domain hne
    by_cases hc : (decide (daysUntilExpiry domain.expiryDate now ≤ 30) &&
        decide (daysUntilExpiry domain.expiryDate now > 0) &&
        (alerts.any fun a =>
          a.domainId == domain.id && a.type == "domain_expiry" &&
            decide (a.daysBeforeExpiry ≥ daysUntilExpiry domain.expiryDate now))) = true
    · simp only [Bool.and_eq_true, decide_eq_true_eq] at hc
      exact ⟨hc.1.2, hc.1.1⟩
    · exfalso
      apply hne
      unfold dailyMonitoringStep
      simp only [hc, if_false, Bool.false_eq_true]
  · intro alerts now emailSend smsSend log record info hne
    by_cases hc : (decide (daysUntilExpiry info.validUntil now ≤ 30) &&
        decide (daysUntilExpiry info.validUntil now > 0) &&
        (alerts.any fun a =>
          a.domainId == record.domainId && a.type == "ssl_expiry" &&
            decide (a.daysBeforeExpiry ≥ daysUntilExpiry info.validUntil now))) = true
    · simp only [Bool.and_eq_true, decide_eq_true_eq] at hc
      exact ⟨hc.1.2, hc.1.1⟩
    · exfalso
      apply hne
      unfold sslMonitoringStep
      simp only [hc, if_false, Bool.false_eq_true]
  · intro expiryDay currentDate now hw h1 h2
    unfold domainExpirySqlWindow at hw
    simp only [Bool.and_eq_true, decide_eq_true_eq] at hw
    unfold daysUntilExpiry jsCeilDiv
    rw [msPerDay_eq] at h1 h2 ⊢
    omega
  · intro validUntilDay currentDate now hw h1 h2
    unfold sslExpirySqlWindow at hw
    simp only [Bool.and_eq_true, decide_eq_true_eq] at hw
    unfold daysUntilExpiry jsCeilDiv
    rw [msPerDay_eq] at h1 h2 ⊢
    omega

/-- C10 witness: a threshold of 90 validates; concrete firing daily and SSL
steps with their 30-day bounds; and concrete window-selected day numbers. -/
theorem claim_C10_thirty_day_cap_witness :
    (0 < daysUntilExpiry (10 * 86400000) 0 ∧ daysUntilExpiry (10 * 86400000) 0 ≤ 30) ∧
    (0 < daysUntilExpiry (20 * 86400000) 0 ∧ daysUntilExpiry (20 * 86400000) 0 ≤ 30) ∧
    (0 < daysUntilExpiry (10 * msPerDay) 3600000 ∧
      daysUntilExpiry (10 * msPerDay) 3600000 ≤ 30) ∧
    (0 < daysUntilExpiry (30 * msPerDay) 3600000 ∧
      daysUntilExpiry (30 * msPerDay) 3600000 ≤ 30) :=
  ⟨claim_C10_thirty_day_cap.2.1 [⟨1, "domain_expiry", true, false, 90⟩] 0
     (Except.ok ()) (Except.ok ()) []
     ⟨1, 1, 10 * 86400000, some "owner@example.com", none, "O", "W"⟩
     (by decide),
   claim_C10_thirty_day_cap.2.2.1 [⟨5, "ssl_expiry", true, false, 90⟩] 0
     (Except.ok ()) (Except.ok ()) []
     ⟨5, 9, some "owner@example.com", none, "O", "W"⟩
     ⟨"Example CA", 0, 20 * 86400000, "valid"⟩
     (by decide),
   claim_C10_thirty_day_cap.2.2.2.1 10 0 3600000 (by decide) (by decide) (by decide),
   claim_C10_thirty_day_cap.2.2.2.2 30 0 3600000 (by decide) (by decide) (by decide)⟩
